import Mathlib

/-!
Shallow embedding of the `libtwitch-rs` core (files `src/lib.rs` and
`src/auth.rs`): the `Credentials` record and its file/environment loading,
the request-building and response-decoding pipeline of the
`get`/`post`/`put`/`delete` operations, and the OAuth2 authorization-URL
generator that appears both as the standalone module `auth.rs` and as the
nested module `auth` inside `lib.rs`.

External effects are made explicit: the process environment and the file
system are finite partial maps passed as arguments, JSON decoding is a
parameter (serde is a third-party library), the standard-error stream is the
list of lines a call emits, and a Rust `panic!`/`unwrap` failure is an
explicit outcome distinct from a returned error value.
-/

namespace TwitchApi

/-- A serde decode error; only its message is relevant to the pipeline. -/
abbrev SerdeErr := String

/-- Modelled from the spec: the structured server error shape `ErrorResponse`
of the `response` module, which is not among the given source files.  Per
spec section 3 it carries a status, an error message, and an optional wrapped
decode-failure cause; `lib.rs` mutates its `cause` field (lines 262, 297,
327). -/
structure ErrorResponse where
  status : Nat
  message : String
  cause : Option SerdeErr
deriving DecidableEq

/-- Modelled from the spec: the error type `ApiError` of the `response`
module, which is not among the given source files.  Spec section 4.3 lists the
four variants; `lib.rs` imports the transport variant by name
(`use crate::response::ApiError::HyperErr`, line 79) and uses the
constructors `ApiError::empty_response()`, `ApiError::from(serde error)` and
`ApiError::from(ErrorResponse)`. -/
inductive ApiError where
  /-- Transport failure (the `From<reqwest::Error>` conversion used by `?`). -/
  | HyperErr (e : SerdeErr)
  /-- The server returned a response with no usable body. -/
  | EmptyResponse
  /-- The body parsed as neither the target shape nor the error shape. -/
  | DecodeFailure (e : SerdeErr)
  /-- A structured server-reported error. -/
  | ApiErr (r : ErrorResponse)
deriving DecidableEq

/-- `Credentials` (lib.rs lines 96-101). -/
structure Credentials where
  client_id : Option String
  token : Option String
deriving DecidableEq

/-- The process environment: variable name to value. -/
def Env := String → Option String

/-- The file system: path to content; `none` means unreadable/absent. -/
def FS := String → Option String

/-- `TwitchClient` (lib.rs lines 152-156); the HTTP transport handle has no
bearing on any formalised behaviour and is omitted. -/
structure TwitchClient where
  cred : Credentials

/- ## Scope and the auth-URL generator

The enum `Scope` is declared twice, identically: `src/auth.rs` lines 25-41
and `src/lib.rs` lines 346-362 (the nested module `auth`).  One Lean type
stands for both. -/

/-- `Scope` (auth.rs lines 25-41 = lib.rs lines 346-362). -/
inductive Scope where
  | channel_check_subscription
  | channel_commercial
  | channel_editor
  | channel_feed_edit
  | channel_feed_read
  | channel_read
  | channel_stream
  | channel_subscriptions
  | chat_login
  | user_blocks_edit
  | user_blocks_read
  | user_follows_edit
  | user_read
  | user_subscriptions
  | viewing_activity_ready
deriving DecidableEq

/-- `Scope`'s `Display` implementation delegates to the derived `Debug`
(auth.rs lines 43-51 = lib.rs lines 364-372), which prints the variant
identifier; the identifiers are the canonical lowercase scope names. -/
def Scope.to_string : Scope → String
  | .channel_check_subscription => "channel_check_subscription"
  | .channel_commercial => "channel_commercial"
  | .channel_editor => "channel_editor"
  | .channel_feed_edit => "channel_feed_edit"
  | .channel_feed_read => "channel_feed_read"
  | .channel_read => "channel_read"
  | .channel_stream => "channel_stream"
  | .channel_subscriptions => "channel_subscriptions"
  | .chat_login => "chat_login"
  | .user_blocks_edit => "user_blocks_edit"
  | .user_blocks_read => "user_blocks_read"
  | .user_follows_edit => "user_follows_edit"
  | .user_read => "user_read"
  | .user_subscriptions => "user_subscriptions"
  | .viewing_activity_ready => "viewing_activity_ready"

/-- Rust's `str::trim_end_matches('+')`: remove every trailing `'+'`. -/
def trim_end_plus (s : String) : String :=
  String.mk ((s.data.reverse.dropWhile (fun c => c == '+')).reverse)

namespace Auth

/-- `format_scope` (auth.rs lines 55-62): push each scope's rendering
followed by `'+'` onto an accumulator, then trim the trailing `'+'`. -/
def format_scope (scopes : List Scope) : String :=
  trim_end_plus (scopes.foldl (fun res scope => (res ++ scope.to_string) ++ "+") "")

/-- `gen_auth_url` (auth.rs lines 64-82).  The source concatenates the held
`client_id` string onto the URL (the expression
`Some(&c.cred.client_id.clone()).unwrap()` is the `client_id` field itself);
the held string is taken, the absent case contributing the empty string. -/
def gen_auth_url (c : TwitchClient) (rtype : String) (redirect_url : String)
    (scope : List Scope) (state : String) : String :=
  (((((((("https://api.twitch.tv/kraken/oauth2/authorize" ++ "?response_type=")
    ++ rtype ++ "&client_id=")
    ++ c.cred.client_id.getD "")
    ++ "&redirect_uri=")
    ++ redirect_url)
    ++ "&scope=") ++ format_scope scope)
    ++ "&state=") ++ state

/-- `auth_code_flow` (auth.rs lines 84-92). -/
def auth_code_flow (c : TwitchClient) (redirect_url : String)
    (scope : List Scope) (state : String) : String :=
  gen_auth_url c "code" redirect_url scope state

/-- `imp_grant_flow` (auth.rs lines 94-102). -/
def imp_grant_flow (c : TwitchClient) (redirect_url : String)
    (scope : List Scope) (state : String) : String :=
  gen_auth_url c "token" redirect_url scope state

end Auth

namespace LibAuth

/-- `format_scope` of the nested module (lib.rs lines 376-383); textually
identical to the standalone one. -/
def format_scope (scopes : List Scope) : String :=
  trim_end_plus (scopes.foldl (fun res scope => (res ++ scope.to_string) ++ "+") "")

/-- `gen_auth_url` of the nested module (lib.rs lines 385-401).  Here the
source concatenates `&c.cred.client_id` directly; again the held string is
taken. -/
def gen_auth_url (c : TwitchClient) (rtype : String) (redirect_url : String)
    (scope : List Scope) (state : String) : String :=
  (((((((("https://api.twitch.tv/kraken/oauth2/authorize" ++ "?response_type=")
    ++ rtype ++ "&client_id=")
    ++ c.cred.client_id.getD "")
    ++ "&redirect_uri=")
    ++ redirect_url)
    ++ "&scope=") ++ format_scope scope)
    ++ "&state=") ++ state

/-- `auth_code_flow` of the nested module (lib.rs lines 403-411). -/
def auth_code_flow (c : TwitchClient) (redirect_url : String)
    (scope : List Scope) (state : String) : String :=
  gen_auth_url c "code" redirect_url scope state

/-- `imp_grant_flow` of the nested module (lib.rs lines 413-421). -/
def imp_grant_flow (c : TwitchClient) (redirect_url : String)
    (scope : List Scope) (state : String) : String :=
  gen_auth_url c "token" redirect_url scope state

end LibAuth

/- ## The credential file format

`Credentials::save` serialises with `toml::to_string` and
`Credentials::set_from_file` parses with `toml::from_str` (lib.rs lines
117-149); the toml library itself is a third-party dependency, not among the
given source files. -/

/-- Modelled from the spec: the escaping of a basic string value in the
credential file ("a simple key-value text format", spec sections 3 and 6).
The backslash, the double quote and the newline are escaped; every other
character stands for itself. -/
def escChar (c : Char) : List Char :=
  if c = '\\' then ['\\', '\\']
  else if c = '\x22' then ['\\', '\x22']
  else if c = '\n' then ['\\', 'n']
  else [c]

/-- Escape a whole string, character by character. -/
def escChars : List Char → List Char
  | [] => []
  | c :: cs => escChar c ++ escChars cs

/-- The characters of the line `client_id = "` up to the opening quote. -/
def cidKey : List Char :=
  ['c', 'l', 'i', 'e', 'n', 't', '_', 'i', 'd', ' ', '=', ' ', '\x22']

/-- The characters of the line `token = "` up to the opening quote. -/
def tokKey : List Char :=
  ['t', 'o', 'k', 'e', 'n', ' ', '=', ' ', '\x22']

/-- Modelled from the spec: `toml::to_string` on a `Credentials` value.  A
present field becomes one `key = "value"` line (value escaped), an absent
field is omitted, `client_id` first. -/
def toml_to_string (c : Credentials) : String :=
  String.mk
    ((match c.client_id with
      | some s => cidKey ++ escChars s.data ++ ['\x22', '\n']
      | none => []) ++
     (match c.token with
      | some s => tokKey ++ escChars s.data ++ ['\x22', '\n']
      | none => []))

/-- Consume a quoted-string body up to its closing quote, undoing the
escapes; returns the decoded characters and the rest of the input. -/
def parseQuoted : List Char → Option (List Char × List Char)
  | [] => none
  | '\x22' :: rest => some ([], rest)
  | '\\' :: '\\' :: rest => (parseQuoted rest).map (fun p => ('\\' :: p.1, p.2))
  | '\\' :: '\x22' :: rest => (parseQuoted rest).map (fun p => ('\x22' :: p.1, p.2))
  | '\\' :: 'n' :: rest => (parseQuoted rest).map (fun p => ('\n' :: p.1, p.2))
  | '\\' :: _ :: _ => none
  | ['\\'] => none
  | c :: rest => (parseQuoted rest).map (fun p => (c :: p.1, p.2))

/-- Strip a literal key from the front of the input, or fail. -/
def stripKey : List Char → List Char → Option (List Char)
  | [], l => some l
  | _ :: _, [] => none
  | p :: ps, c :: cs => if c = p then stripKey ps cs else none

/-- Parse one optional `key = "value"` line: absent key yields `none` and
leaves the input untouched; a present key must carry a well-formed quoted
value ended by a newline. -/
def parseField (key : List Char) (l : List Char) :
    Option (Option String × List Char) :=
  match stripKey key l with
  | none => some (none, l)
  | some r =>
    match parseQuoted r with
    | none => none
    | some (s, rest) =>
      match rest with
      | '\n' :: r2 => some (some (String.mk s), r2)
      | _ => none

/-- Modelled from the spec: `toml::from_str::<Credentials>` — the two
recognised keys in order, nothing else allowed. -/
def toml_from_str (content : String) : Option Credentials :=
  match parseField cidKey content.data with
  | none => none
  | some (cid, l1) =>
    match parseField tokKey l1 with
    | none => none
    | some (tok, l2) =>
      if l2 = [] then some { client_id := cid, token := tok } else none

/- ## Credentials operations (lib.rs lines 103-150) -/

/-- `Credentials::set_from_file` (lib.rs lines 125-140): read the file and
parse it as toml; either failure is a `panic!`, modelled as `none`. -/
def Credentials.set_from_file (fs : FS) (file : String) : Option Credentials :=
  match fs file with
  | none => none
  | some file_content => toml_from_str file_content

/-- `Credentials::new` (lib.rs lines 104-115): with a path, load from the
file system (panic possible); without one, read the two environment
variables, an unset variable defaulting to the empty string
(`env::var(..).unwrap_or_default()`). -/
def Credentials.new (file : Option String) (fs : FS) (env : Env) :
    Option Credentials :=
  match file with
  | some p => Credentials.set_from_file fs p
  | none =>
    some
      { client_id := some ((env "TWITCH_CLIENT_ID").getD "")
        token := some ((env "TWITCH_OAUTH_TOKEN").getD "") }

/-- `Credentials::write_to_file` (lib.rs lines 142-149): serialise and write;
returns the updated file system. -/
def Credentials.write_to_file (c : Credentials) (fs : FS) (file : String) : FS :=
  fun p => if p = file then some (toml_to_string c) else fs p

/-- `Credentials::save` (lib.rs lines 117-123): delegates to
`write_to_file`. -/
def Credentials.save (c : Credentials) (fs : FS) (path : String) : FS :=
  Credentials.write_to_file c fs path

/- ## The request pipeline (lib.rs lines 165-336) -/

/-- The outcome of a step of the pipeline: a value, an error value returned
to the caller, or a `panic!`/`unwrap` abort of the process. -/
inductive CallResult (α : Type) where
  | ok (a : α)
  | err (e : ApiError)
  | panic
deriving DecidableEq

/-- The observable content of the request a call dispatches. -/
structure RequestParts where
  url : String
  accept : String
  client_id_header : String
  authorization : String
deriving DecidableEq

/-- `TwitchClient::build_request` (lib.rs lines 166-207): prefix the path
with the fixed API root and attach the three headers.  Both credential
fields are taken with `.clone().unwrap()`, so an absent field is a panic,
not a returned error. -/
def TwitchClient.build_request (c : TwitchClient) (path : String) :
    CallResult RequestParts :=
  match c.cred.client_id, c.cred.token with
  | some cid, some tok =>
    .ok
      { url := "https://api.twitch.tv/kraken" ++ path
        accept := "application/vnd.twitchtv.v5+json"
        client_id_header := cid
        authorization := "OAuth " ++ tok }
  | _, _ => .panic

/-- The body-decoding tail shared verbatim by `post` (lib.rs lines 252-270),
`put` (lib.rs lines 287-305) and `delete` (lib.rs lines 317-335), applied
once the response text `s` has been read in full.  `decR` and `decErr` stand
for `serde_json::from_str` at the caller's target shape and at
`ErrorResponse`; `status` is the response's HTTP status, which this code
never consults.  The second component is the list of lines written to the
standard error stream. -/
def decode_body {R : Type} (decR : String → Except SerdeErr R)
    (decErr : String → Except SerdeErr ErrorResponse)
    (status : Nat) (s : String) : Except ApiError R × List String :=
  let _ := status
  if s.isEmpty then (.error .EmptyResponse, [])
  else
    match decR s with
    | .ok x => (.ok x, [])
    | .error err =>
      match decErr s with
      | .ok e => (.error (.ApiErr { e with cause := some err }), [])
      | .error _ =>
        (.error (.DecodeFailure err), ["Serde Parse Fail:\n\x22" ++ s ++ "\x22"])

/-- The response handling of `post` (lib.rs lines 238-271). -/
def post_response {R : Type} (decR : String → Except SerdeErr R)
    (decErr : String → Except SerdeErr ErrorResponse)
    (status : Nat) (s : String) : Except ApiError R × List String :=
  decode_body decR decErr status s

/-- The response handling of `put` (lib.rs lines 273-306). -/
def put_response {R : Type} (decR : String → Except SerdeErr R)
    (decErr : String → Except SerdeErr ErrorResponse)
    (status : Nat) (s : String) : Except ApiError R × List String :=
  decode_body decR decErr status s

/-- The response handling of `delete` (lib.rs lines 308-336). -/
def delete_response {R : Type} (decR : String → Except SerdeErr R)
    (decErr : String → Except SerdeErr ErrorResponse)
    (status : Nat) (s : String) : Except ApiError R × List String :=
  decode_body decR decErr status s

/-- The response handling of `get` (lib.rs lines 217-236), which differs
from the other three operations: the body is decoded once via
`.json::<Option<T>>().await?`, whose failure the `?` converts into the
transport variant (`From<reqwest::Error>`, imported as `HyperErr`); a decoded
`None` (the JSON literal `null`) becomes the empty-response error; nothing is
ever decoded as `ErrorResponse` and nothing is written to standard error.
The constant assertion `assert!(StatusCode::OK.is_success())` (line 229)
always holds and is not modelled; `status` is again never consulted. -/
def get_response {T : Type} (decOT : String → Except SerdeErr (Option T))
    (status : Nat) (s : String) : Except ApiError T × List String :=
  let _ := status
  match decOT s with
  | .error e => (.error (.HyperErr e), [])
  | .ok none => (.error .EmptyResponse, [])
  | .ok (some t) => (.ok t, [])

/- ## Spec-side definitions and concrete sample data -/

/-- Spec-side rendering of a scope sequence: "each rendered as its canonical
lowercase name, joined with the separator `+`, with no trailing separator,
and in the same order as the input sequence". -/
def joinedWithPlus : List String → String
  | [] => ""
  | [s] => s
  | s :: rest => (s ++ "+") ++ joinedWithPlus rest

/-- The concatenation `name + "+"` per scope, in order; the intermediate
string the source's accumulator loop builds before trimming. -/
def catPlus : List Scope → String
  | [] => ""
  | s :: rest => (s.to_string ++ "+") ++ catPlus rest

/-- A concrete server error body (the JSON object
`{"error":"Bad Request","status":400,"message":"boom"}`). -/
def demoErrBody : String :=
  "\x7b\x22error\x22:\x22Bad Request\x22,\x22status\x22:400,\x22message\x22:\x22boom\x22\x7d"

/-- A concrete body that is not JSON at all. -/
def demoGarbage : String := "garbage"

/-- The structured error carried by `demoErrBody`. -/
def demoER : ErrorResponse := { status := 400, message := "boom", cause := none }

/-- A concrete decoder standing for `serde_json::from_str::<Option<u64>>`:
the JSON literal `null` is `None`, the JSON number `1` is `Some 1`, and any
other input (the empty string, an object, garbage) is a parse error. -/
def demoDecodeNat : String → Except SerdeErr (Option Nat) := fun s =>
  if s = "null" then .ok none
  else if s = "1" then .ok (some 1)
  else .error ("invalid type at " ++ s)

/-- A concrete decoder standing for `serde_json::from_str::<ErrorResponse>`:
it accepts exactly `demoErrBody` and rejects everything else. -/
def demoDecodeErrResp : String → Except SerdeErr ErrorResponse := fun s =>
  if s = demoErrBody then .ok demoER
  else .error ("missing field at " ++ s)

/-- The empty process environment: every variable unset. -/
def env0 : Env := fun _ => none

/-- The empty file system: every path unreadable. -/
def fs0 : FS := fun _ => none

/- ## Helper lemmas -/

theorem mk_data (s : String) : String.mk s.data = s := rfl

theorem parseQuoted_other (c : Char) (h1 : ¬c = '\x22') (h2 : ¬c = '\\')
    (rest : List Char) :
    parseQuoted (c :: rest) =
      (parseQuoted rest).map (fun p => (c :: p.1, p.2)) := by
  rw [parseQuoted] <;> intros <;> simp_all

theorem escChar_other (c : Char) (h1 : ¬c = '\\') (h2 : ¬c = '\x22')
    (h3 : ¬c = '\n') : escChar c = [c] := by
  simp only [escChar, if_neg h1, if_neg h2, if_neg h3]

theorem parseQuoted_esc (s : List Char) :
    ∀ rest, parseQuoted (escChars s ++ '\x22' :: rest) = some (s, rest) := by
  induction s with
  | nil => intro rest; simp [escChars, parseQuoted]
  | cons c cs ih =>
    intro rest
    by_cases h1 : c = '\\'
    · subst h1
      rw [show escChars ('\\' :: cs) = escChar '\\' ++ escChars cs from rfl]
      rw [show escChar '\\' = ['\\', '\\'] from by simp [escChar]]
      simp only [List.cons_append, List.nil_append, List.append_assoc]
      simp [parseQuoted, ih]
    · by_cases h2 : c = '\x22'
      · subst h2
        rw [show escChars ('\x22' :: cs) = escChar '\x22' ++ escChars cs from rfl]
        rw [show escChar '\x22' = ['\\', '\x22'] from by simp [escChar]]
        simp only [List.cons_append, List.nil_append, List.append_assoc]
        simp [parseQuoted, ih]
      · by_cases h3 : c = '\n'
        · subst h3
          rw [show escChars ('\n' :: cs) = escChar '\n' ++ escChars cs from rfl]
          rw [show escChar '\n' = ['\\', 'n'] from by simp [escChar]]
          simp only [List.cons_append, List.nil_append, List.append_assoc]
          simp [parseQuoted, ih]
        · rw [show escChars (c :: cs) = escChar c ++ escChars cs from rfl]
          rw [escChar_other c h1 h2 h3]
          simp only [List.cons_append, List.nil_append, List.append_assoc]
          rw [parseQuoted_other c h2 h1, ih, Option.map_some']

theorem stripKey_self (p : List Char) : ∀ r, stripKey p (p ++ r) = some r := by
  induction p with
  | nil => intro r; rfl
  | cons c cs ih => intro r; simp [stripKey, ih]

theorem stripKey_cid_tok (r : List Char) : stripKey cidKey (tokKey ++ r) = none := by
  simp [cidKey, tokKey, stripKey]

theorem parseField_hit (key s rest : List Char) :
    parseField key (key ++ (escChars s ++ '\x22' :: '\n' :: rest)) =
      some (some (String.mk s), rest) := by
  simp only [parseField, stripKey_self, parseQuoted_esc]

theorem parseField_cid_tok (r : List Char) :
    parseField cidKey (tokKey ++ r) = some (none, tokKey ++ r) := by
  simp only [parseField, stripKey_cid_tok]

theorem toml_round_trip (c : Credentials) :
    toml_from_str (toml_to_string c) = some c := by
  obtain ⟨cid, tok⟩ := c
  cases cid with
  | some a =>
    cases tok with
    | some b =>
      show toml_from_str ⟨(cidKey ++ escChars a.data ++ ['\x22', '\n']) ++
        (tokKey ++ escChars b.data ++ ['\x22', '\n'])⟩ = _
      rw [show ((cidKey ++ escChars a.data ++ ['\x22', '\n']) ++
            (tokKey ++ escChars b.data ++ ['\x22', '\n']) : List Char) =
          cidKey ++ (escChars a.data ++ '\x22' :: '\n' ::
            (tokKey ++ (escChars b.data ++ '\x22' :: '\n' :: []))) by
        simp [List.append_assoc]]
      simp only [toml_from_str, parseField_hit, mk_data]
      rfl
    | none =>
      show toml_from_str ⟨(cidKey ++ escChars a.data ++ ['\x22', '\n']) ++ []⟩ = _
      rw [show ((cidKey ++ escChars a.data ++ ['\x22', '\n']) ++ [] : List Char) =
          cidKey ++ (escChars a.data ++ '\x22' :: '\n' :: []) by
        simp [List.append_assoc]]
      simp only [toml_from_str, parseField_hit, mk_data]
      rfl
  | none =>
    cases tok with
    | some b =>
      show toml_from_str ⟨[] ++ (tokKey ++ escChars b.data ++ ['\x22', '\n'])⟩ = _
      rw [show (([] ++ (tokKey ++ escChars b.data ++ ['\x22', '\n'])) : List Char) =
          tokKey ++ (escChars b.data ++ '\x22' :: '\n' :: []) by
        simp [List.append_assoc]]
      simp only [toml_from_str, parseField_cid_tok, parseField_hit, mk_data]
      rfl
    | none =>
      rfl

theorem scope_name_facts (s : Scope) :
    (Scope.to_string s).data ≠ [] ∧
      (Scope.to_string s).data.reverse.dropWhile (fun c => c == '+') =
        (Scope.to_string s).data.reverse := by
  cases s <;> exact ⟨by decide, by decide⟩

theorem foldl_eq_catPlus (scopes : List Scope) :
    ∀ acc : String,
      scopes.foldl (fun res scope => (res ++ scope.to_string) ++ "+") acc =
        acc ++ catPlus scopes := by
  induction scopes with
  | nil => intro acc; simp [catPlus, String.append_empty]
  | cons x xs ih =>
    intro acc
    simp only [List.foldl_cons, catPlus]
    rw [ih]
    simp [String.append_assoc]

theorem joined_ne_nil (x : Scope) (xs : List Scope) :
    (joinedWithPlus ((x :: xs).map Scope.to_string)).data ≠ [] := by
  cases xs with
  | nil => exact (scope_name_facts x).1
  | cons y ys =>
    simp only [List.map_cons, joinedWithPlus, String.data_append]
    intro h
    rcases List.append_eq_nil.mp h with ⟨h1, -⟩
    rcases List.append_eq_nil.mp h1 with ⟨h2, -⟩
    exact (scope_name_facts x).1 h2

theorem trim_catPlus (scopes : List Scope) :
    ((catPlus scopes).data.reverse.dropWhile (fun c => c == '+')).reverse =
      (joinedWithPlus (scopes.map Scope.to_string)).data := by
  induction scopes with
  | nil => simp [catPlus, joinedWithPlus]
  | cons x xs ih =>
    cases xs with
    | nil =>
      simp only [catPlus, joinedWithPlus, List.map_cons, List.map_nil,
        String.data_append, String.append_empty, List.reverse_append]
      rw [show (("+".data : List Char).reverse) = ['+'] from rfl]
      simp only [List.singleton_append, List.dropWhile_cons]
      simp only [show (('+' == '+') = true) from rfl, if_true]
      rw [(scope_name_facts x).2, List.reverse_reverse]
    | cons y ys =>
      have hdrop :
          List.dropWhile (fun c => c == '+') (catPlus (y :: ys)).data.reverse =
            (joinedWithPlus ((y :: ys).map Scope.to_string)).data.reverse := by
        have h := congrArg List.reverse ih
        rwa [List.reverse_reverse] at h
      rw [show catPlus (x :: y :: ys) =
            (Scope.to_string x ++ "+") ++ catPlus (y :: ys) from rfl]
      rw [show joinedWithPlus ((x :: y :: ys).map Scope.to_string) =
            (Scope.to_string x ++ "+") ++
              joinedWithPlus ((y :: ys).map Scope.to_string) from rfl]
      simp only [String.data_append, List.reverse_append]
      rw [List.dropWhile_append, hdrop]
      rw [if_neg (by
        simp only [List.isEmpty_iff, List.reverse_eq_nil_iff]
        exact joined_ne_nil y ys)]
      simp [List.reverse_append, List.reverse_reverse, List.append_assoc,
        joinedWithPlus]

theorem format_scope_eq_joined (scopes : List Scope) :
    Auth.format_scope scopes = joinedWithPlus (scopes.map Scope.to_string) := by
  unfold Auth.format_scope trim_end_plus
  rw [foldl_eq_catPlus scopes "", String.empty_append]
  exact String.ext (trim_catPlus scopes)

/- ## Claim C1 -/

/-- C1, counterexample.  The claim covers `get` as well, but on a body that
fails the target decode while decoding as `ErrorResponse`, `get` returns the
transport-wrapped decode failure (`HyperErr`), not an `ApiErr` carrying the
original failure as its cause: `get` decodes once via `.json()?` and never
consults the error shape. -/
theorem get_error_shape_counterexample :
    demoDecodeNat demoErrBody = .error ("invalid type at " ++ demoErrBody) ∧
      demoDecodeErrResp demoErrBody = .ok demoER ∧
      get_response demoDecodeNat 200 demoErrBody =
        (.error (.HyperErr ("invalid type at " ++ demoErrBody)), []) :=
  ⟨rfl, rfl, rfl⟩

/-- C1, amended: for `post`, `put` and `delete` (not `get`), a non-empty body
that fails the target decode but decodes as `ErrorResponse` yields an
`ApiErr` whose `cause` is the original decode failure, with nothing written
to standard error. -/
theorem post_put_delete_error_shape_cause (R : Type)
    (decR : String → Except SerdeErr R)
    (decErr : String → Except SerdeErr ErrorResponse) (status : Nat)
    (s : String) (e0 : SerdeErr) (er : ErrorResponse)
    (hne : s.isEmpty = false) (hR : decR s = .error e0) (hE : decErr s = .ok er) :
    post_response decR decErr status s =
        (.error (.ApiErr { er with cause := some e0 }), []) ∧
      put_response decR decErr status s =
        (.error (.ApiErr { er with cause := some e0 }), []) ∧
      delete_response decR decErr status s =
        (.error (.ApiErr { er with cause := some e0 }), []) := by
  refine ⟨?_, ?_, ?_⟩ <;>
    simp [post_response, put_response, delete_response, decode_body, hne, hR, hE]

/-- C1, witness: the amended theorem applied at the concrete error body. -/
theorem post_put_delete_error_shape_cause_witness :
    post_response demoDecodeNat demoDecodeErrResp 200 demoErrBody =
      (.error (.ApiErr
        { demoER with cause := some ("invalid type at " ++ demoErrBody) }), []) :=
  (post_put_delete_error_shape_cause (Option Nat) demoDecodeNat demoDecodeErrResp
    200 demoErrBody ("invalid type at " ++ demoErrBody) demoER rfl rfl rfl).1

/- ## Claim C2 -/

/-- C2, counterexample.  The claim covers `get` as well, but on an empty body
`get` does not fail with `EmptyResponse`: the single `.json()?` decode fails
on empty input (the empty string is not JSON) and the `?` surfaces it as the
transport variant. -/
theorem get_empty_body_counterexample :
    get_response demoDecodeNat 200 "" =
        (.error (.HyperErr ("invalid type at " ++ "")), []) ∧
      ApiError.HyperErr ("invalid type at " ++ "") ≠ ApiError.EmptyResponse :=
  ⟨rfl, by decide⟩

/-- C2, amended: `post`, `put` and `delete` fail with `EmptyResponse` on an
empty body regardless of the HTTP status; `get` fails with `EmptyResponse`
exactly when the body decodes to JSON `null`, an actually empty body being
surfaced as a transport-wrapped decode failure instead. -/
theorem empty_body_empty_response :
    (∀ (R : Type) (decR : String → Except SerdeErr R)
      (decErr : String → Except SerdeErr ErrorResponse) (status : Nat),
        post_response decR decErr status "" = (.error .EmptyResponse, []) ∧
          put_response decR decErr status "" = (.error .EmptyResponse, []) ∧
          delete_response decR decErr status "" = (.error .EmptyResponse, [])) ∧
      (∀ (T : Type) (decOT : String → Except SerdeErr (Option T))
        (status : Nat) (s : String), decOT s = .ok none →
          get_response decOT status s = (.error .EmptyResponse, [])) := by
  constructor
  · intro R decR decErr status
    exact ⟨rfl, rfl, rfl⟩
  · intro T decOT status s h
    simp [get_response, h]

/-- C2, witness: the amended theorem at an empty body for `post` and at the
JSON `null` body for `get`. -/
theorem empty_body_empty_response_witness :
    post_response demoDecodeNat demoDecodeErrResp 200 "" =
        (.error .EmptyResponse, []) ∧
      get_response demoDecodeNat 200 "null" = (.error .EmptyResponse, []) :=
  ⟨(empty_body_empty_response.1 (Option Nat) demoDecodeNat demoDecodeErrResp 200).1,
    empty_body_empty_response.2 Nat demoDecodeNat 200 "null" rfl⟩

/- ## Claim C3 -/

/-- C3, counterexample.  The claim covers `get` as well, but on a body that
fails both decodes, `get` returns the transport-wrapped failure (`HyperErr`,
not `DecodeFailure`) and emits no diagnostic at all (its emitted standard-
error line list is empty). -/
theorem get_double_failure_counterexample :
    demoDecodeNat demoGarbage = .error ("invalid type at " ++ demoGarbage) ∧
      demoDecodeErrResp demoGarbage = .error ("missing field at " ++ demoGarbage) ∧
      get_response demoDecodeNat 200 demoGarbage =
        (.error (.HyperErr ("invalid type at " ++ demoGarbage)), []) :=
  ⟨rfl, rfl, rfl⟩

/-- C3, amended: for `post`, `put` and `delete` (not `get`), a non-empty body
failing both decodes yields the original failure as `DecodeFailure`, and one
diagnostic line containing the raw body is written to standard error. -/
theorem post_put_delete_double_failure (R : Type)
    (decR : String → Except SerdeErr R)
    (decErr : String → Except SerdeErr ErrorResponse) (status : Nat)
    (s : String) (e0 e1 : SerdeErr)
    (hne : s.isEmpty = false) (hR : decR s = .error e0)
    (hE : decErr s = .error e1) :
    post_response decR decErr status s =
        (.error (.DecodeFailure e0), ["Serde Parse Fail:\n\x22" ++ s ++ "\x22"]) ∧
      put_response decR decErr status s =
        (.error (.DecodeFailure e0), ["Serde Parse Fail:\n\x22" ++ s ++ "\x22"]) ∧
      delete_response decR decErr status s =
        (.error (.DecodeFailure e0), ["Serde Parse Fail:\n\x22" ++ s ++ "\x22"]) := by
  refine ⟨?_, ?_, ?_⟩ <;>
    simp [post_response, put_response, delete_response, decode_body, hne, hR, hE]

/-- C3, witness: the amended theorem applied at the concrete garbage body. -/
theorem post_put_delete_double_failure_witness :
    delete_response demoDecodeNat demoDecodeErrResp 200 demoGarbage =
      (.error (.DecodeFailure ("invalid type at " ++ demoGarbage)),
        ["Serde Parse Fail:\n\x22" ++ demoGarbage ++ "\x22"]) :=
  (post_put_delete_double_failure (Option Nat) demoDecodeNat demoDecodeErrResp
    200 demoGarbage ("invalid type at " ++ demoGarbage)
    ("missing field at " ++ demoGarbage) rfl rfl rfl).2.2

/- ## Claim C4 -/

/-- C4: for a client holding client id `id` (any token), the
authorization-code-flow URL at redirect `http://localhost/cb`, scopes
`[channel_read, user_read]` and state `xyz` is exactly the expected
string. -/
theorem auth_code_flow_exact_url (id : String) (tok : Option String) :
    Auth.auth_code_flow ⟨⟨some id, tok⟩⟩ "http://localhost/cb"
        [Scope.channel_read, Scope.user_read] "xyz" =
      "https://api.twitch.tv/kraken/oauth2/authorize?response_type=code&client_id="
        ++ id
        ++ "&redirect_uri=http://localhost/cb&scope=channel_read+user_read&state=xyz" := by
  show ((((((((("https://api.twitch.tv/kraken/oauth2/authorize" ++ "?response_type=")
      ++ "code") ++ "&client_id=") ++ id) ++ "&redirect_uri=") ++ "http://localhost/cb")
      ++ "&scope=") ++ "channel_read+user_read") ++ "&state=") ++ "xyz" =
    ("https://api.twitch.tv/kraken/oauth2/authorize?response_type=code&client_id="
      ++ id)
      ++ "&redirect_uri=http://localhost/cb&scope=channel_read+user_read&state=xyz"
  rw [show (("https://api.twitch.tv/kraken/oauth2/authorize" ++ "?response_type=")
      ++ "code") ++ "&client_id=" =
      ("https://api.twitch.tv/kraken/oauth2/authorize?response_type=code&client_id=" : String)
      from rfl]
  simp only [String.append_assoc]
  congr 1

/- ## Claim C5 -/

/-- C5: both `format_scope`s render a scope list as the canonical lowercase
names joined by `+` with no trailing separator in input order, and that
rendering is the scope component the generated auth URL embeds between
`&scope=` and `&state=`. -/
theorem scope_component_joined (scopes : List Scope) :
    Auth.format_scope scopes = joinedWithPlus (scopes.map Scope.to_string) ∧
      LibAuth.format_scope scopes = joinedWithPlus (scopes.map Scope.to_string) ∧
      ∀ (c : TwitchClient) (rtype redirect_url state : String),
        Auth.gen_auth_url c rtype redirect_url scopes state =
          (((((((("https://api.twitch.tv/kraken/oauth2/authorize" ++ "?response_type=")
            ++ rtype ++ "&client_id=")
            ++ c.cred.client_id.getD "")
            ++ "&redirect_uri=")
            ++ redirect_url)
            ++ "&scope=") ++ joinedWithPlus (scopes.map Scope.to_string))
            ++ "&state=") ++ state := by
  refine ⟨format_scope_eq_joined scopes, format_scope_eq_joined scopes, ?_⟩
  intro c rtype redirect_url state
  unfold Auth.gen_auth_url
  rw [format_scope_eq_joined scopes]

/- ## Claim C6 -/

/-- C6: saving any `Credentials` value to a path and reloading from that
path yields exactly the original `client_id` and `token`. -/
theorem credentials_save_load_round_trip (c : Credentials) (fs : FS)
    (path : String) :
    Credentials.set_from_file (Credentials.save c fs path) path = some c := by
  unfold Credentials.set_from_file Credentials.save Credentials.write_to_file
  rw [if_pos rfl]
  exact toml_round_trip c

/- ## Claim C7 -/

/-- C7: loading credentials from the environment (no file path) with both
variables unset succeeds (no failure) and yields both fields present and
empty. -/
theorem credentials_from_env_unset (env : Env) (fs : FS)
    (h1 : env "TWITCH_CLIENT_ID" = none) (h2 : env "TWITCH_OAUTH_TOKEN" = none) :
    Credentials.new none fs env =
      some { client_id := some "", token := some "" } := by
  simp [Credentials.new, h1, h2]

/-- C7, witness: the theorem at the empty environment. -/
theorem credentials_from_env_unset_witness :
    Credentials.new none fs0 env0 =
      some { client_id := some "", token := some "" } :=
  credentials_from_env_unset env0 fs0 rfl rfl

/- ## Claim C8 -/

/-- C8, counterexample.  With the token absent, building a request does not
return a configuration error to the caller: the `.unwrap()` on the credential
field panics, aborting the process. -/
theorem build_request_missing_token_counterexample :
    TwitchClient.build_request ⟨⟨some "abc123", none⟩⟩ "/streams/featured" =
      .panic := rfl

/-- C8, amended: a call on a client lacking either credential field panics
(aborts the process) inside `build_request` instead of failing with an error
returned to the caller; no configuration-error variant even exists in the
error model. -/
theorem build_request_missing_field_panics (c : TwitchClient) (path : String)
    (h : c.cred.client_id = none ∨ c.cred.token = none) :
    c.build_request path = .panic := by
  obtain ⟨⟨cid, tok⟩⟩ := c
  cases cid <;> cases tok <;> simp_all [TwitchClient.build_request]

/-- C8, witness: the amended theorem at a client lacking the client id. -/
theorem build_request_missing_field_panics_witness :
    TwitchClient.build_request ⟨⟨none, some "oauthtok"⟩⟩ "/games/top" = .panic :=
  build_request_missing_field_panics ⟨⟨none, some "oauthtok"⟩⟩ "/games/top"
    (Or.inl rfl)

/- ## Claim C9 -/

/-- C9: for any client with a present client id, the standalone auth module
(auth.rs) and the nested auth module (lib.rs) produce equal strings on
`gen_auth_url`, `auth_code_flow` and `imp_grant_flow`. -/
theorem auth_modules_agree (c : TwitchClient) (rtype redirect_url state : String)
    (scopes : List Scope) (_h : ∃ id, c.cred.client_id = some id) :
    Auth.gen_auth_url c rtype redirect_url scopes state =
        LibAuth.gen_auth_url c rtype redirect_url scopes state ∧
      Auth.auth_code_flow c redirect_url scopes state =
        LibAuth.auth_code_flow c redirect_url scopes state ∧
      Auth.imp_grant_flow c redirect_url scopes state =
        LibAuth.imp_grant_flow c redirect_url scopes state :=
  ⟨rfl, rfl, rfl⟩

/-- C9, witness: the theorem at a concrete client and argument list. -/
theorem auth_modules_agree_witness :
    Auth.gen_auth_url ⟨⟨some "abc123", some "tok"⟩⟩ "code" "http://localhost/cb"
        [Scope.channel_read] "xyz" =
      LibAuth.gen_auth_url ⟨⟨some "abc123", some "tok"⟩⟩ "code"
        "http://localhost/cb" [Scope.channel_read] "xyz" :=
  (auth_modules_agree ⟨⟨some "abc123", some "tok"⟩⟩ "code" "http://localhost/cb"
    "xyz" [Scope.channel_read] ⟨"abc123", rfl⟩).1

/- ## Claim C10 -/

/-- C10: for every environment, constructing `Credentials` without a file
path yields a value whose two fields are both present (`some`), never
absent. -/
theorem env_credentials_fields_present (env : Env) (fs : FS) (c' : Credentials)
    (h : Credentials.new none fs env = some c') :
    c'.client_id.isSome = true ∧ c'.token.isSome = true := by
  simp only [Credentials.new, Option.some.injEq] at h
  subst h
  constructor <;> rfl

/-- C10, witness: the theorem at the empty environment. -/
theorem env_credentials_fields_present_witness :
    (Credentials.mk (some "") (some "")).client_id.isSome = true ∧
      (Credentials.mk (some "") (some "")).token.isSome = true :=
  env_credentials_fields_present env0 fs0 (Credentials.mk (some "") (some "")) rfl

end TwitchApi
